import Mathlib

/-!
Verification development for the Pharma repository.

The core under verification is the acquisition-and-decode session of
`src/components/pharma/qr-barcode-scanner-dialog.tsx`: a dialog component that
turns a live camera feed (Camera mode) or a user-supplied still image
(Upload mode) into a decoded identifier string, while managing the camera
scanner instance (the ResourceHandle of the spec) across open / close /
mode-switch events.

The embedding is a shallow one: the mutable pieces of the component
(`open` prop, `currentMode`, `isScannerDivMounted`, `activeScannerInstanceRef`,
`initTimeoutIdRef`, `error`, `imagePreview`, the file input, the toast log and
the `onScanSuccess` call log) become fields of an explicit `DialogState`;
the event handlers and the two React effects become pure state-transition
functions.  External stimuli (prop changes, button clicks, the delayed init
timeout firing, decode callbacks from the scanner library) are an inductive
`Event` type; `handleEvent` applies the corresponding handler from the source
and then `commit`, which models the React commit that follows an event in the
single-threaded cooperative scheduling model: the ref callback of the scanner
div fires (the div is rendered exactly when `open && currentMode === 'camera'`,
line 295), and each of the two `useEffect` hooks re-runs (previous cleanup
first, then the body) precisely when its dependency tuple changed.

A side ledger `live` records the ids of scanner instances that have been
created (`new Html5QrcodeScanner` + `render`, which starts camera acquisition)
and not yet released (`clear()`); it is bookkeeping for the resource claims and
is updated exactly where the source creates or clears an instance.

Supporting, non-core claims are modelled from their own source files:
serial-number validation (`product-registration-tab.tsx`), the lookup route
(`GET /api/products/[serialNumber]`), and the zod output schema of
`analyze-packaging.ts`.
-/

namespace Pharma

/-- currentMode: 'camera' | 'upload' (line 62 of qr-barcode-scanner-dialog). -/
inductive Mode where
  | camera
  | upload
deriving DecidableEq, Repr

/-- Boolean test mirroring the source comparisons currentMode === 'camera'. -/
def Mode.isCamera : Mode → Bool
  | .camera => true
  | .upload => false

/-- One Html5QrcodeScanner instance, identified by a fresh id.  `capturedOpen`
is the value of the `open` prop captured by the success-callback closure at the
render in which the instance was created (line 133-138). -/
structure Instance where
  id : Nat
  capturedOpen : Bool
deriving DecidableEq, Repr

/-- A file chosen in the Upload-mode file input: its MIME type, byte size,
whether the FileReader read succeeds, and the data-URL content produced by a
successful read. -/
structure UploadFile where
  mime : String
  size : Nat
  readOk : Bool
  content : String
deriving DecidableEq, Repr

/-- One toast notification (variant, title, description). -/
structure Toast where
  variant : String
  title : String
  description : String
deriving DecidableEq, Repr

/-- The state of the scanner dialog component plus its observable logs. -/
structure DialogState where
  /-- the `open` prop (the parent component holds it in `showScanner`) -/
  openP : Bool
  /-- currentMode state (line 62) -/
  mode : Mode
  /-- isScannerDivMounted state, driven by the scannerDivRef callback (72-74) -/
  divMounted : Bool
  /-- activeScannerInstanceRef (line 55) -/
  active : Option Instance
  /-- initTimeoutIdRef is non-null: a delayed camera init is scheduled (69, 90) -/
  pending : Bool
  /-- fresh-id counter for created scanner instances -/
  nextId : Nat
  /-- ledger: ids of created, not yet released (clear-ed) scanner instances -/
  live : List Nat
  /-- log of onScanSuccess calls, most recent first -/
  scans : List String
  /-- error state (line 61) -/
  error : Option String
  /-- imagePreview state (line 63) -/
  imagePreview : Option String
  /-- the file currently held by fileInputRef, if any -/
  fileSelected : Option UploadFile
  /-- log of toasts, most recent first -/
  toasts : List Toast
  /-- number of decode passes run by handleScanFromFile (scanFile calls) -/
  uploadAttempts : Nat
  /-- dependency snapshot of the scanner useEffect (line 173) -/
  deps1 : Bool × Mode × Bool
  /-- dependency snapshot of the UI-reset useEffect (line 272) -/
  deps2 : Bool × Mode
deriving DecidableEq, Repr

/-- Outcome of the single scanFile decode pass over the supplied image
(line 244): a decoded text, or a rejection with an error message. -/
inductive UploadScanResult where
  | decoded (t : String)
  | failed (msg : String)
deriving DecidableEq, Repr

/-- External stimuli the component reacts to. -/
inductive Event where
  /-- the parent sets the `open` prop (opens or closes the dialog) -/
  | setOpen (b : Bool)
  /-- the Cancel button: handleClose, i.e. onOpenChange(false) (176-178) -/
  | closeClick
  /-- the mode-switch footer button (329-340) -/
  | switchClick
  /-- the delayed 250ms camera-init timeout fires (90-151); `elemOk` is
  whether getElementById finds the scanner element, `ctorOk` whether scanner
  construction and render succeed (the try/catch at 129-150) -/
  | timeoutFire (elemOk ctorOk : Bool)
  /-- the success callback of scanner instance `inst` fires with decoded
  text `t` (133-138) -/
  | decodeSuccess (inst : Instance) (t : String)
  /-- the error callback of the live scanner fires with `msg`; the source
  callback body is empty (140-142), per-frame noise is ignored -/
  | liveDecodeError (msg : String)
  /-- a change of the file input: handleFileChange (181-207) -/
  | fileChange (f : Option UploadFile)
  /-- the Scan-from-Image button: handleScanFromFile (210-257); `r` is the
  outcome of the single scanFile decode pass -/
  | uploadScanClick (r : UploadScanResult)

/-- Model of JS `s.toLowerCase().includes(pat)` for the ASCII strings used by
the component (line 249, where `pat` is a lowercase literal): does `pat`
occur as a contiguous substring of the lowercased `s`. -/
def strContainsLC (s pat : String) : Bool :=
  let ls := s.data.map Char.toLower
  let lp := pat.data
  (List.range (ls.length + 1)).any (fun i => lp.isPrefixOf (ls.drop i))

/-- Model of JS `s.startsWith(pre)` for the ASCII strings used here. -/
def strStartsWith (s pre : String) : Bool :=
  pre.data.isPrefixOf s.data

/-- Release the scanner instance held by activeScannerInstanceRef, if any:
`clear()` is called on it (it leaves the live ledger) and the ref is nulled in
the `.finally`.  When the ref is null nothing happens.  This is the shape of
lines 154-158, 167-171 and 331-336. -/
def releaseActive (s : DialogState) : DialogState :=
  match s.active with
  | some inst => { s with active := none, live := s.live.erase inst.id }
  | none => s

/-- Cleanup function of the camera useEffect (lines 162-172): clear the
pending init timeout, then clear the active scanner instance if one exists. -/
def cleanupEffect (s : DialogState) : DialogState :=
  releaseActive { s with pending := false }

/-- Body of the camera useEffect (lines 77-159), minus the content of the
scheduled timeout (which is the separate `timeoutBody`): clear any pending
timeout (79-82); if `shouldCameraBeActive` (84) holds and no instance is
active, schedule the delayed init (90, 151); otherwise release the active
instance if any (152-159). -/
def scannerEffectBody (s : DialogState) : DialogState :=
  let s := { s with pending := false }
  if s.openP && s.mode.isCamera && s.divMounted then
    match s.active with
    | some _ => s
    | none => { s with pending := true }
  else
    releaseActive s

/-- Body of the UI-reset useEffect (lines 260-272): when the dialog is closed,
clear the image preview, the error and the file input; when open in camera
mode, clear the error, the preview and the file input; when open in upload
mode, clear only the error. -/
def resetEffectBody (s : DialogState) : DialogState :=
  if !s.openP then
    { s with imagePreview := none, error := none, fileSelected := none }
  else if s.mode.isCamera then
    { s with error := none, imagePreview := none, fileSelected := none }
  else
    { s with error := none }

/-- The scanner-div ref callback (72-74): the div renders exactly when
`open && currentMode === 'camera'` (line 295), so isScannerDivMounted tracks
that condition after every render. -/
def syncDiv (s : DialogState) : DialogState :=
  { s with divMounted := s.openP && s.mode.isCamera }

/-- Re-run of the camera useEffect when its dependencies changed (the previous
cleanup runs first, then the body, and the dependency snapshot is updated). -/
def runEff1 (s : DialogState) : DialogState :=
  if s.deps1 = (s.openP, s.mode, s.divMounted) then s
  else
    let t := scannerEffectBody (cleanupEffect s)
    { t with deps1 := (t.openP, t.mode, t.divMounted) }

/-- Re-run of the UI-reset useEffect when its dependencies changed. -/
def runEff2 (s : DialogState) : DialogState :=
  if s.deps2 = (s.openP, s.mode) then s
  else { resetEffectBody s with deps2 := (s.openP, s.mode) }

/-- The React commit that follows an event: the scanner-div ref callback
fires, then each useEffect re-runs precisely when its dependency tuple
changed. -/
def commit (s : DialogState) : DialogState :=
  runEff2 (runEff1 (syncDiv s))

/-- Content of the delayed init timeout (lines 91-150), run when the 250ms
timeout fires while still scheduled: re-check `open && currentMode === 'camera'
&& isScannerDivMounted` (91), bail out if an instance is already active (92),
report an error if the scanner element is missing (94-98) or construction
fails (146-150), otherwise create the instance, render it and store it in
activeScannerInstanceRef (131-145).  The success-callback closure captures the
current value of `open`. -/
def timeoutBody (elemOk ctorOk : Bool) (s : DialogState) : DialogState :=
  if !s.pending then s
  else
    let s := { s with pending := false }
    if !(s.openP && s.mode.isCamera && s.divMounted) then s
    else
      match s.active with
      | some _ => s
      | none =>
        if !elemOk then
          { s with error := some "Scanner UI not ready. Please try closing and reopening." }
        else if !ctorOk then
          { s with error := some "Scanner failed to initialize." }
        else
          { s with
              active := some ⟨s.nextId, s.openP⟩,
              live := s.nextId :: s.live,
              nextId := s.nextId + 1 }

/-- The success callback of scanner instance `inst` (lines 133-138): it acts
only if the captured `open` is true and activeScannerInstanceRef still holds
exactly this instance; then it calls onScanSuccess and onOpenChange(false). -/
def successCallback (inst : Instance) (t : String) (s : DialogState) : DialogState :=
  if inst.capturedOpen && decide (s.active = some inst) then
    { s with scans := t :: s.scans, openP := false }
  else
    s

/-- The mode-switch button handler (lines 329-340), clickable only while the
dialog is open: in camera mode with an active instance, clear it and only then
(in the `.finally`) switch to upload; otherwise just toggle the mode. -/
def switchHandler (s : DialogState) : DialogState :=
  if !s.openP then s
  else if s.mode.isCamera then
    match s.active with
    | some inst => { s with active := none, live := s.live.erase inst.id, mode := .upload }
    | none => { s with mode := .upload }
  else
    { s with mode := .camera }

/-- handleFileChange (lines 181-207), reachable only while the dialog is open
in upload mode (the input renders under `currentMode === 'upload'`, line 302):
reject non-image MIME types and files over 5MB before any decode attempt
(the rejected file stays in the input element but no preview is produced);
otherwise the FileReader produces the preview or a read error. -/
def fileChangeHandler (f : Option UploadFile) (s : DialogState) : DialogState :=
  if !(s.openP && !s.mode.isCamera) then s
  else
    match f with
    | none => { s with imagePreview := none, fileSelected := none }
    | some f =>
      if !(strStartsWith f.mime "image/") then
        { s with error := some "Invalid file type. Please upload an image.",
                 imagePreview := none, fileSelected := some f }
      else if 5 * 1024 * 1024 < f.size then
        { s with error := some "File is too large. Maximum size is 5MB.",
                 imagePreview := none, fileSelected := some f }
      else if f.readOk then
        { s with imagePreview := some f.content, error := none, fileSelected := some f }
      else
        { s with error := some "Failed to read file.",
                 imagePreview := none, fileSelected := some f }

/-- The Scan-from-Image button is disabled exactly when there is no image
preview (line 316: `disabled={!imagePreview}`). -/
def scanFromImageDisabled (s : DialogState) : Bool :=
  s.imagePreview.isNone

/-- handleScanFromFile (lines 210-257), reachable only while the dialog is
open in upload mode with the button enabled: bail out with an error if no file
is selected (211-214); otherwise clear the error (216), run exactly one
scanFile decode pass over the file (244) — the hidden fileScanDiv of line 352
is mounted whenever the dialog content is, so the checks of 218-240 pass —
and either report success (245-246) or set a user-facing error plus a
destructive toast (247-256). -/
def uploadScanHandler (r : UploadScanResult) (s : DialogState) : DialogState :=
  if !(s.openP && !s.mode.isCamera && s.imagePreview.isSome) then s
  else
    match s.fileSelected with
    | none => { s with error := some "Please select an image file first." }
    | some _ =>
      let s := { s with error := none, uploadAttempts := s.uploadAttempts + 1 }
      match r with
      | .decoded t => { s with scans := t :: s.scans, openP := false }
      | .failed msg =>
        let friendly := strContainsLC msg "not found" || strContainsLC msg "qr code not found"
        { s with
            error := some (if friendly then "No barcode found in the image or format not supported." else msg),
            toasts := ⟨"destructive", "Scan Failed",
                       if friendly then "No barcode found in the image." else msg⟩ :: s.toasts }

/-- Raw handler dispatch: the immediate effect of each stimulus, before the
React commit. -/
def rawHandler (s : DialogState) : Event → DialogState
  | .setOpen b => { s with openP := b }
  | .closeClick => { s with openP := false }
  | .switchClick => switchHandler s
  | .timeoutFire elemOk ctorOk => timeoutBody elemOk ctorOk s
  | .decodeSuccess inst t => successCallback inst t s
  | .liveDecodeError _ => s
  | .fileChange f => fileChangeHandler f s
  | .uploadScanClick r => uploadScanHandler r s

/-- One step of the component: run the handler for the stimulus, then the
React commit (state updates are flushed, the ref callback fires and effects
whose dependencies changed re-run before the next external stimulus arrives —
the single-threaded cooperative scheduling model). -/
def handleEvent (s : DialogState) (e : Event) : DialogState :=
  commit (rawHandler s e)

/-- The component as first mounted: dialog closed, camera mode, nothing
active, both effects having run once on mount. -/
def initState : DialogState where
  openP := false
  mode := .camera
  divMounted := false
  active := none
  pending := false
  nextId := 0
  live := []
  scans := []
  error := none
  imagePreview := none
  fileSelected := none
  toasts := []
  uploadAttempts := 0
  deps1 := (false, .camera, false)
  deps2 := (false, .camera)

/-- State after a sequence of stimuli from the initial state. -/
def run (evs : List Event) : DialogState :=
  evs.foldl handleEvent initState

/-- The contents of the live ledger as determined by the active ref: the id of
the instance held by activeScannerInstanceRef, or nothing. -/
def activeIds (s : DialogState) : List Nat :=
  match s.active with
  | some inst => [inst.id]
  | none => []

/-- Invariant of reachable (post-commit) states: both dependency snapshots are
current, isScannerDivMounted tracks the render condition, the live ledger is
exactly the instance held by the ref (so releasing the ref releases the last
un-released instance), an active instance was created with `open` captured as
true while the camera view was live, a pending init was scheduled while the
camera view was live, and a closed dialog has no error, preview or file. -/
def Inv (s : DialogState) : Prop :=
  s.deps1 = (s.openP, s.mode, s.divMounted)
  ∧ s.deps2 = (s.openP, s.mode)
  ∧ s.divMounted = (s.openP && s.mode.isCamera)
  ∧ s.live = activeIds s
  ∧ (∀ inst, s.active = some inst → inst.capturedOpen = true ∧ s.openP = true ∧ s.mode = Mode.camera)
  ∧ (s.pending = true → s.openP = true ∧ s.mode = Mode.camera)
  ∧ (s.openP = false → s.error = none ∧ s.imagePreview = none ∧ s.fileSelected = none)

/-- Does the event open the dialog (set the `open` prop to true)?  Used to
delimit one logical open/close interval of the controller. -/
def opensDialog : Event → Bool
  | .setOpen b => b
  | _ => false

/-- One character matched by the [A-Z0-9] class of the serial regex (code
points 65-90 and 48-57). -/
def isSerialChar (c : Char) : Bool :=
  (65 ≤ c.toNat && c.toNat ≤ 90) || (48 ≤ c.toNat && c.toNat ≤ 57)

/-- The test of the JS regex /^[A-Z0-9]\x7b8,20\x7d$/ used by validateForm of
product-registration-tab.tsx (line 70): a full match is a string of 8 to 20
characters, each an ASCII uppercase letter or digit. -/
def serialNumberRegexTest (sn : String) : Bool :=
  8 ≤ sn.length && sn.length ≤ 20 && sn.data.all isSerialChar

/-- validateForm of product-registration-tab.tsx (lines 61-80): requires all
three fields non-empty and the serial number to match the regex. -/
def validateForm (serialNumber name manufacturer : String) : Bool :=
  if serialNumber = "" || name = "" || manufacturer = "" then false
  else if !serialNumberRegexTest serialNumber then false
  else true

/-- handleSubmit of product-registration-tab.tsx (lines 82-127): POSTs the
triple to /api/products only when validateForm passes, otherwise nothing is
sent. -/
def handleSubmit (serialNumber name manufacturer : String) :
    Option (String × String × String) :=
  if validateForm serialNumber name manufacturer then
    some (serialNumber, name, manufacturer)
  else
    none

/-- JS String.prototype.toUpperCase on the ASCII strings used here: uppercase
every character. -/
def jsToUpperCase (sn : String) : String :=
  ⟨sn.data.map Char.toUpper⟩

/-- The GET /api/products/[serialNumber] route (unnamed/part_001): a blank
serial path parameter (one whose JS trim() leaves the empty string, i.e. an
all-whitespace parameter) is rejected with a 400 before any query; otherwise the
products collection is queried by the uppercased serial number.  The returned
value is the serialNumber key used in the findOne query. -/
def productsGetQueryKey (param : String) : Option String :=
  if param.data.all Char.isWhitespace then none
  else some (jsToUpperCase param)

/-- The authenticity object of a raw model output for the packaging-analysis
flow: a boolean verdict, a numeric confidence, a free-text rationale and an
optional list of flagged anomalies (analyze-packaging.ts lines 20-35). -/
structure AuthenticityRaw where
  isAuthentic : Bool
  confidence : Rat
  reason : String
  potentialIssues : Option (List String)
deriving DecidableEq, Repr

/-- The zod schema AnalyzePackagingOutputSchema (analyze-packaging.ts lines
20-35): confidence carries .min(0).max(1), so parsing fails unless the
confidence lies in [0,1]; a failed parse yields no output. -/
def analyzePackagingOutputParse (a : AuthenticityRaw) : Option AuthenticityRaw :=
  if 0 ≤ a.confidence ∧ a.confidence ≤ 1 then some a else none

/-- analyzePackagingFlow (analyze-packaging.ts lines 89-115): the model call
yields an optional raw output which the output schema validates; when no
valid output exists the flow throws, otherwise the validated output is
returned. -/
def analyzePackagingFlow (modelOutput : Option AuthenticityRaw) :
    Except String AuthenticityRaw :=
  match modelOutput.bind analyzePackagingOutputParse with
  | some o => Except.ok o
  | none => Except.error "AI analysis failed to produce a valid output."

theorem inv_initState : Inv initState := by
  refine ⟨rfl, rfl, rfl, rfl, ?_, ?_, ?_⟩ <;> intro h <;> simp_all [initState]

/-- The commit re-establishes the invariant from four facts about the state
the raw handler leaves behind. -/
theorem inv_commit (s : DialogState)
    (h1 : s.live = activeIds s)
    (h2 : ∀ inst, s.active = some inst → inst.capturedOpen = true ∧
        (s.deps1 = (s.openP, s.mode, s.openP && s.mode.isCamera) →
          s.openP = true ∧ s.mode = Mode.camera))
    (h3 : s.pending = true → s.deps1 = (s.openP, s.mode, s.openP && s.mode.isCamera) →
        s.openP = true ∧ s.mode = Mode.camera)
    (h4 : s.openP = false → s.deps2 ≠ (s.openP, s.mode) ∨
        (s.error = none ∧ s.imagePreview = none ∧ s.fileSelected = none)) :
    Inv (commit s) := by
  cases hA : s.active with
  | none =>
    rcases Bool.eq_false_or_eq_true s.openP with ho | ho <;>
    cases hm : s.mode <;>
    rcases Bool.eq_false_or_eq_true s.pending with hp2 | hp2 <;>
    by_cases hd1 : s.deps1 = (s.openP, s.mode, s.openP && s.mode.isCamera) <;>
    by_cases hd2 : s.deps2 = (s.openP, s.mode) <;>
    simp_all [commit, syncDiv, runEff1, runEff2, Inv, activeIds, resetEffectBody,
      scannerEffectBody, cleanupEffect, releaseActive, Mode.isCamera, List.erase_cons_head]
  | some inst =>
    obtain ⟨hc, himp⟩ := h2 inst hA
    clear h2
    rcases Bool.eq_false_or_eq_true s.openP with ho | ho <;>
    cases hm : s.mode <;>
    rcases Bool.eq_false_or_eq_true s.pending with hp2 | hp2 <;>
    by_cases hd1 : s.deps1 = (s.openP, s.mode, s.openP && s.mode.isCamera) <;>
    by_cases hd2 : s.deps2 = (s.openP, s.mode) <;>
    simp_all [commit, syncDiv, runEff1, runEff2, Inv, activeIds, resetEffectBody,
      scannerEffectBody, cleanupEffect, releaseActive, Mode.isCamera, List.erase_cons_head]

/-- On an invariant (post-commit) state the commit is a no-op: the div is in
sync and neither dependency tuple changed, so no effect re-runs. -/
theorem commit_id (s : DialogState) (hs : Inv s) : commit s = s := by
  obtain ⟨hd1, hd2, hdiv, -, -, -, -⟩ := hs
  have hsync : syncDiv s = s := by
    unfold syncDiv
    rw [← hdiv]
  unfold commit
  rw [hsync]
  unfold runEff1
  rw [if_pos hd1]
  unfold runEff2
  rw [if_pos hd2]

theorem inv_commit_of_inv (s : DialogState) (hs : Inv s) : Inv (commit s) := by
  rw [commit_id s hs]
  exact hs

theorem inv_step_open (s : DialogState) (b : Bool) (hs : Inv s) :
    Inv (commit { s with openP := b }) := by
  obtain ⟨hd1, hd2, hdiv, hlive, hact, hpend, hui⟩ := hs
  refine inv_commit _ ?_ ?_ ?_ ?_
  · exact hlive
  · intro inst h
    obtain ⟨hc, ho, hm⟩ := hact inst h
    refine ⟨hc, fun hp => ?_⟩
    have hb : s.openP = b := congrArg Prod.fst (hd1.symm.trans hp)
    exact ⟨hb ▸ ho, hm⟩
  · intro hp2 hp
    obtain ⟨ho, hm⟩ := hpend hp2
    have hb : s.openP = b := congrArg Prod.fst (hd1.symm.trans hp)
    exact ⟨hb ▸ ho, hm⟩
  · intro hb
    by_cases ho : s.openP = false
    · exact Or.inr (hui ho)
    · refine Or.inl fun hp => ho ?_
      have hb2 : s.openP = b := congrArg Prod.fst (hd2.symm.trans hp)
      exact hb2.trans hb

theorem inv_step_switch (s : DialogState) (hs : Inv s) :
    Inv (commit (switchHandler s)) := by
  obtain ⟨hd1, hd2, hdiv, hlive, hact, hpend, hui⟩ := hs
  rcases Bool.eq_false_or_eq_true s.openP with hop | hop
  · cases hm2 : s.mode with
    | camera =>
      cases hA : s.active with
      | none =>
        have hr : switchHandler s = { s with mode := .upload } := by
          simp [switchHandler, hop, hm2, Mode.isCamera, hA]
        rw [hr]
        refine inv_commit _ ?_ ?_ ?_ ?_
        · exact hlive
        · intro inst h
          simp only [hA] at h
          exact absurd h (by simp)
        · intro hp2 hp
          have hmu : s.mode = Mode.upload := congrArg (fun p => p.2.1) (hd1.symm.trans hp)
          rw [hm2] at hmu
          exact absurd hmu (by simp)
        · intro hb
          exact absurd hb (by simp [hop])
      | some inst =>
        have hr : switchHandler s =
            { s with active := none, live := s.live.erase inst.id, mode := .upload } := by
          simp [switchHandler, hop, hm2, Mode.isCamera, hA]
        rw [hr]
        refine inv_commit _ ?_ ?_ ?_ ?_
        · show s.live.erase inst.id = activeIds { s with active := none, live := s.live.erase inst.id, mode := Mode.upload }
          rw [hlive]
          simp [activeIds, hA]
        · intro inst' h
          exact absurd h (by simp)
        · intro hp2 hp
          have hmu : s.mode = Mode.upload := congrArg (fun p => p.2.1) (hd1.symm.trans hp)
          rw [hm2] at hmu
          exact absurd hmu (by simp)
        · intro hb
          exact absurd hb (by simp [hop])
    | upload =>
      have hr : switchHandler s = { s with mode := .camera } := by
        simp [switchHandler, hop, hm2, Mode.isCamera]
      rw [hr]
      refine inv_commit _ ?_ ?_ ?_ ?_
      · exact hlive
      · intro inst h
        have := (hact inst h).2.2
        rw [hm2] at this
        exact absurd this (by simp)
      · intro hp2 hp
        have := (hpend hp2).2
        rw [hm2] at this
        exact absurd this (by simp)
      · intro hb
        exact absurd hb (by simp [hop])
  · have hr : switchHandler s = s := by
      simp [switchHandler, hop]
    rw [hr]
    exact inv_commit_of_inv s ⟨hd1, hd2, hdiv, hlive, hact, hpend, hui⟩

theorem inv_step_timeout (s : DialogState) (eo co : Bool) (hs : Inv s) :
    Inv (commit (timeoutBody eo co s)) := by
  obtain ⟨hd1, hd2, hdiv, hlive, hact, hpend, hui⟩ := hs
  by_cases hp2 : s.pending = true
  · obtain ⟨ho, hm⟩ := hpend hp2
    have hdt : s.divMounted = true := by rw [hdiv, ho, hm]; rfl
    have hguard : (s.openP && s.mode.isCamera && s.divMounted) = true := by
      rw [ho, hm, hdt]; rfl
    cases hA : s.active with
    | some inst =>
      have hr : timeoutBody eo co s = { s with pending := false } := by
        simp [timeoutBody, hp2, hguard, hA]
      rw [hr]
      refine inv_commit _ ?_ ?_ ?_ ?_
      · exact hlive
      · intro inst' h
        obtain ⟨hc, ho', hm'⟩ := hact inst' h
        exact ⟨hc, fun _ => ⟨ho', hm'⟩⟩
      · intro hpf
        exact absurd hpf (by simp)
      · intro hb
        exact absurd hb (by simp [ho])
    | none =>
      rcases Bool.eq_false_or_eq_true eo with heo | heo
      · rcases Bool.eq_false_or_eq_true co with hco | hco
        · have hr : timeoutBody eo co s =
              { s with pending := false, active := some ⟨s.nextId, s.openP⟩,
                       live := s.nextId :: s.live, nextId := s.nextId + 1 } := by
            simp [timeoutBody, hp2, hguard, hA, heo, hco]
          rw [hr]
          refine inv_commit _ ?_ ?_ ?_ ?_
          · show s.nextId :: s.live = activeIds _
            rw [hlive]
            simp [activeIds, hA]
          · intro inst' h
            simp only [Option.some.injEq] at h
            refine ⟨?_, fun _ => ⟨ho, hm⟩⟩
            rw [← h]
            exact ho
          · intro hpf
            exact absurd hpf (by simp)
          · intro hb
            exact absurd hb (by simp [ho])
        · have hr : timeoutBody eo co s =
              { s with pending := false,
                       error := some "Scanner failed to initialize." } := by
            simp [timeoutBody, hp2, hguard, hA, heo, hco]
          rw [hr]
          refine inv_commit _ ?_ ?_ ?_ ?_
          · exact hlive
          · intro inst' h
            exact absurd h (by simp [hA])
          · intro hpf
            exact absurd hpf (by simp)
          · intro hb
            exact absurd hb (by simp [ho])
      · have hr : timeoutBody eo co s =
            { s with pending := false,
                     error := some "Scanner UI not ready. Please try closing and reopening." } := by
          simp [timeoutBody, hp2, hguard, hA, heo]
        rw [hr]
        refine inv_commit _ ?_ ?_ ?_ ?_
        · exact hlive
        · intro inst' h
          exact absurd h (by simp [hA])
        · intro hpf
          exact absurd hpf (by simp)
        · intro hb
          exact absurd hb (by simp [ho])
  · have hpf : s.pending = false := by
      cases hpb : s.pending
      · rfl
      · exact absurd hpb hp2
    have hr : timeoutBody eo co s = s := by
      simp [timeoutBody, hpf]
    rw [hr]
    exact inv_commit_of_inv s ⟨hd1, hd2, hdiv, hlive, hact, hpend, hui⟩

theorem inv_step_decode (s : DialogState) (inst : Instance) (t : String) (hs : Inv s) :
    Inv (commit (successCallback inst t s)) := by
  obtain ⟨hd1, hd2, hdiv, hlive, hact, hpend, hui⟩ := hs
  by_cases hg : (inst.capturedOpen && decide (s.active = some inst)) = true
  · have hA : s.active = some inst := by
      have := (Bool.and_eq_true ..).mp hg
      exact of_decide_eq_true this.2
    obtain ⟨hc, ho, hm⟩ := hact inst hA
    have hr : successCallback inst t s = { s with scans := t :: s.scans, openP := false } := by
      simp [successCallback, hg]
    rw [hr]
    refine inv_commit _ ?_ ?_ ?_ ?_
    · exact hlive
    · intro inst' h
      obtain ⟨hc', ho', hm'⟩ := hact inst' h
      refine ⟨hc', fun hp => ?_⟩
      have hfalse : s.openP = false := congrArg Prod.fst (hd1.symm.trans hp)
      rw [ho'] at hfalse
      exact absurd hfalse (by simp)
    · intro hp2 hp
      obtain ⟨ho', hm'⟩ := hpend hp2
      have hfalse : s.openP = false := congrArg Prod.fst (hd1.symm.trans hp)
      rw [ho'] at hfalse
      exact absurd hfalse (by simp)
    · intro hb
      refine Or.inl fun hp => ?_
      have hfalse : s.openP = false := congrArg Prod.fst (hd2.symm.trans hp)
      rw [ho] at hfalse
      exact absurd hfalse (by simp)
  · have hr : successCallback inst t s = s := by
      simp only [successCallback, hg]
      rfl
    rw [hr]
    exact inv_commit_of_inv s ⟨hd1, hd2, hdiv, hlive, hact, hpend, hui⟩

/-- handleFileChange never touches the scanner resource state, the mode or
the open prop: it only updates error, imagePreview and the selected file. -/
theorem fileChange_frame (f : Option UploadFile) (s : DialogState) :
    (fileChangeHandler f s).openP = s.openP ∧ (fileChangeHandler f s).mode = s.mode ∧
    (fileChangeHandler f s).divMounted = s.divMounted ∧
    (fileChangeHandler f s).active = s.active ∧ (fileChangeHandler f s).pending = s.pending ∧
    (fileChangeHandler f s).live = s.live ∧ (fileChangeHandler f s).deps1 = s.deps1 ∧
    (fileChangeHandler f s).deps2 = s.deps2 ∧ (fileChangeHandler f s).nextId = s.nextId ∧
    (fileChangeHandler f s).scans = s.scans := by
  unfold fileChangeHandler
  split
  · exact ⟨rfl, rfl, rfl, rfl, rfl, rfl, rfl, rfl, rfl, rfl⟩
  · cases f with
    | none => exact ⟨rfl, rfl, rfl, rfl, rfl, rfl, rfl, rfl, rfl, rfl⟩
    | some f =>
      simp only []
      split
      · exact ⟨rfl, rfl, rfl, rfl, rfl, rfl, rfl, rfl, rfl, rfl⟩
      · split
        · exact ⟨rfl, rfl, rfl, rfl, rfl, rfl, rfl, rfl, rfl, rfl⟩
        · split
          · exact ⟨rfl, rfl, rfl, rfl, rfl, rfl, rfl, rfl, rfl, rfl⟩
          · exact ⟨rfl, rfl, rfl, rfl, rfl, rfl, rfl, rfl, rfl, rfl⟩

theorem inv_step_fileChange (s : DialogState) (f : Option UploadFile) (hs : Inv s) :
    Inv (commit (fileChangeHandler f s)) := by
  obtain ⟨hd1, hd2, hdiv, hlive, hact, hpend, hui⟩ := hs
  obtain ⟨fo, fm, fd, fa, fp, fl, f1, f2, fn, fsc⟩ := fileChange_frame f s
  by_cases hg : (s.openP && !s.mode.isCamera) = true
  · have hop : s.openP = true := ((Bool.and_eq_true ..).mp hg).1
    have hmu : s.mode.isCamera = false := by
      have := ((Bool.and_eq_true ..).mp hg).2
      cases hmc : s.mode.isCamera
      · rfl
      · rw [hmc] at this
        exact absurd this (by simp)
    have haeq : activeIds (fileChangeHandler f s) = activeIds s := by
      unfold activeIds
      rw [fa]
    refine inv_commit _ ?_ ?_ ?_ ?_
    · rw [fl, haeq]
      exact hlive
    · intro inst h
      rw [fa] at h
      have := (hact inst h).2.2
      rw [this] at hmu
      exact absurd hmu (by simp [Mode.isCamera])
    · intro hp2 hp
      rw [fp] at hp2
      have := (hpend hp2).2
      rw [this] at hmu
      exact absurd hmu (by simp [Mode.isCamera])
    · intro hb
      rw [fo, hop] at hb
      exact absurd hb (by simp)
  · have hr : fileChangeHandler f s = s := by
      unfold fileChangeHandler
      rw [if_pos]
      simp only [Bool.not_eq_true] at hg
      simp [hg]
    rw [hr]
    exact inv_commit_of_inv s ⟨hd1, hd2, hdiv, hlive, hact, hpend, hui⟩

/-- handleScanFromFile never touches the scanner resource state, the mode,
the div or the dependency snapshots. -/
theorem uploadScan_frame (r : UploadScanResult) (s : DialogState) :
    (uploadScanHandler r s).mode = s.mode ∧
    (uploadScanHandler r s).divMounted = s.divMounted ∧
    (uploadScanHandler r s).active = s.active ∧ (uploadScanHandler r s).pending = s.pending ∧
    (uploadScanHandler r s).live = s.live ∧ (uploadScanHandler r s).deps1 = s.deps1 ∧
    (uploadScanHandler r s).deps2 = s.deps2 ∧ (uploadScanHandler r s).nextId = s.nextId := by
  unfold uploadScanHandler
  split
  · exact ⟨rfl, rfl, rfl, rfl, rfl, rfl, rfl, rfl⟩
  · cases hf : s.fileSelected with
    | none => exact ⟨rfl, rfl, rfl, rfl, rfl, rfl, rfl, rfl⟩
    | some f =>
      cases r with
      | decoded t => exact ⟨rfl, rfl, rfl, rfl, rfl, rfl, rfl, rfl⟩
      | failed msg => exact ⟨rfl, rfl, rfl, rfl, rfl, rfl, rfl, rfl⟩

theorem inv_step_uploadScan (s : DialogState) (r : UploadScanResult) (hs : Inv s) :
    Inv (commit (uploadScanHandler r s)) := by
  obtain ⟨hd1, hd2, hdiv, hlive, hact, hpend, hui⟩ := hs
  obtain ⟨fm, fd, fa, fp, fl, f1, f2, fn⟩ := uploadScan_frame r s
  by_cases hg : (s.openP && !s.mode.isCamera && s.imagePreview.isSome) = true
  · have hop : s.openP = true := ((Bool.and_eq_true ..).mp ((Bool.and_eq_true ..).mp hg).1).1
    have hmu : s.mode.isCamera = false := by
      have := ((Bool.and_eq_true ..).mp ((Bool.and_eq_true ..).mp hg).1).2
      cases hmc : s.mode.isCamera
      · rfl
      · rw [hmc] at this
        exact absurd this (by simp)
    have haeq : activeIds (uploadScanHandler r s) = activeIds s := by
      unfold activeIds
      rw [fa]
    refine inv_commit _ ?_ ?_ ?_ ?_
    · rw [fl, haeq]
      exact hlive
    · intro inst h
      rw [fa] at h
      have := (hact inst h).2.2
      rw [this] at hmu
      exact absurd hmu (by simp [Mode.isCamera])
    · intro hp2 hp
      rw [fp] at hp2
      have := (hpend hp2).2
      rw [this] at hmu
      exact absurd hmu (by simp [Mode.isCamera])
    · intro hb
      refine Or.inl fun hp => ?_
      rw [f2, fm] at hp
      have hfalse : s.openP = (uploadScanHandler r s).openP :=
        congrArg Prod.fst (hd2.symm.trans hp)
      rw [hb, hop] at hfalse
      exact absurd hfalse (by simp)
  · have hr : uploadScanHandler r s = s := by
      unfold uploadScanHandler
      rw [if_pos]
      simp only [Bool.not_eq_true] at hg
      simp [hg]
    rw [hr]
    exact inv_commit_of_inv s ⟨hd1, hd2, hdiv, hlive, hact, hpend, hui⟩

/-- Every event preserves the reachable-state invariant. -/
theorem inv_handleEvent (s : DialogState) (e : Event) (hs : Inv s) :
    Inv (handleEvent s e) := by
  cases e with
  | setOpen b => exact inv_step_open s b hs
  | closeClick => exact inv_step_open s false hs
  | switchClick => exact inv_step_switch s hs
  | timeoutFire eo co => exact inv_step_timeout s eo co hs
  | decodeSuccess inst t => exact inv_step_decode s inst t hs
  | liveDecodeError msg => exact inv_commit_of_inv s hs
  | fileChange f => exact inv_step_fileChange s f hs
  | uploadScanClick r => exact inv_step_uploadScan s r hs

/-- Every reachable state satisfies the invariant. -/
theorem inv_run (evs : List Event) : Inv (run evs) := by
  suffices h : ∀ s, Inv s → Inv (evs.foldl handleEvent s) from h initState inv_initState
  induction evs with
  | nil => exact fun s hs => hs
  | cons e evs ih => exact fun s hs => ih (handleEvent s e) (inv_handleEvent s e hs)

/-- The React commit never changes the open prop, the mode, the fresh-id
counter, the scan log, the toast log or the decode-pass counter: effects only
touch the scanner resource fields and the UI-reset fields. -/
theorem commit_frame (s : DialogState) :
    (commit s).openP = s.openP ∧ (commit s).mode = s.mode ∧
    (commit s).nextId = s.nextId ∧ (commit s).scans = s.scans ∧
    (commit s).toasts = s.toasts ∧ (commit s).uploadAttempts = s.uploadAttempts := by
  cases hA : s.active <;>
  by_cases hd1 : s.deps1 = (s.openP, s.mode, s.openP && s.mode.isCamera) <;>
  by_cases hd2 : s.deps2 = (s.openP, s.mode) <;>
  rcases Bool.eq_false_or_eq_true (s.openP && s.mode.isCamera) with hs2 | hs2 <;>
  rcases Bool.eq_false_or_eq_true s.openP with ho | ho <;>
  cases hm : s.mode <;>
  simp_all [commit, syncDiv, runEff1, runEff2, Inv, activeIds, resetEffectBody,
    scannerEffectBody, cleanupEffect, releaseActive, Mode.isCamera]

/-- The commit of a state whose dependency snapshots are current and whose
div flag is in sync is a no-op (same proof obligations as `commit_id` without
the full invariant). -/
theorem commit_eq_of_deps (s : DialogState)
    (hd1 : s.deps1 = (s.openP, s.mode, s.divMounted))
    (hd2 : s.deps2 = (s.openP, s.mode))
    (hdiv : s.divMounted = (s.openP && s.mode.isCamera)) : commit s = s := by
  have hsync : syncDiv s = s := by
    unfold syncDiv
    rw [← hdiv]
  unfold commit
  rw [hsync]
  unfold runEff1
  rw [if_pos hd1]
  unfold runEff2
  rw [if_pos hd2]

/-- No raw handler changes the fresh-id counter while an instance is held by
the ref: the only creation site (the init timeout, line 131) bails out when
activeScannerInstanceRef is non-null (line 92). -/
theorem rawHandler_nextId_of_active (s : DialogState) (e : Event)
    (h : s.active.isSome = true) : (rawHandler s e).nextId = s.nextId := by
  cases hA : s.active with
  | none =>
    rw [hA] at h
    exact absurd h (by simp)
  | some inst =>
    cases e with
    | setOpen b => rfl
    | closeClick => rfl
    | liveDecodeError msg => rfl
    | switchClick =>
      show (switchHandler s).nextId = s.nextId
      unfold switchHandler
      split_ifs <;> simp [hA]
    | timeoutFire eo co =>
      show (timeoutBody eo co s).nextId = s.nextId
      unfold timeoutBody
      split_ifs <;> simp [hA]
    | decodeSuccess inst' t =>
      show (successCallback inst' t s).nextId = s.nextId
      unfold successCallback
      split_ifs <;> rfl
    | fileChange f => exact (fileChange_frame f s).2.2.2.2.2.2.2.2.1
    | uploadScanClick r => exact (uploadScan_frame r s).2.2.2.2.2.2.2

/-- No raw handler other than the init timeout can change the fresh-id
counter. -/
theorem rawHandler_nextId_of_nontimeout (s : DialogState) (e : Event)
    (h : ∀ eo co, e ≠ Event.timeoutFire eo co) :
    (rawHandler s e).nextId = s.nextId := by
  cases e with
  | setOpen b => rfl
  | closeClick => rfl
  | liveDecodeError msg => rfl
  | switchClick =>
    show (switchHandler s).nextId = s.nextId
    unfold switchHandler
    split_ifs <;> cases hA : s.active <;> simp [hA]
  | timeoutFire eo co => exact absurd rfl (h eo co)
  | decodeSuccess inst' t =>
    show (successCallback inst' t s).nextId = s.nextId
    unfold successCallback
    split_ifs <;> rfl
  | fileChange f => exact (fileChange_frame f s).2.2.2.2.2.2.2.2.1
  | uploadScanClick r => exact (uploadScan_frame r s).2.2.2.2.2.2.2

/-- On a reachable closed state, every stimulus that does not re-open the
dialog leaves the scan log untouched by the raw handler and keeps the dialog
closed. -/
theorem closed_raw (s : DialogState) (hs : Inv s) (ho : s.openP = false) (e : Event)
    (he : opensDialog e = false) :
    (rawHandler s e).scans = s.scans ∧ (rawHandler s e).openP = false := by
  obtain ⟨hd1, hd2, hdiv, hlive, hact, hpend, hui⟩ := hs
  have hA : s.active = none := by
    cases hA2 : s.active with
    | none => rfl
    | some inst =>
      have := (hact inst hA2).2.1
      rw [ho] at this
      exact absurd this (by simp)
  have hp : s.pending = false := by
    cases hp2 : s.pending
    · rfl
    · have := (hpend hp2).1
      rw [ho] at this
      exact absurd this (by simp)
  cases e with
  | setOpen b =>
    have hb : b = false := he
    exact ⟨rfl, hb⟩
  | closeClick => exact ⟨rfl, rfl⟩
  | liveDecodeError msg => exact ⟨rfl, ho⟩
  | switchClick =>
    have hr : switchHandler s = s := by
      simp [switchHandler, ho]
    show (switchHandler s).scans = s.scans ∧ (switchHandler s).openP = false
    rw [hr]
    exact ⟨rfl, ho⟩
  | timeoutFire eo co =>
    have hr : timeoutBody eo co s = s := by
      simp [timeoutBody, hp]
    show (timeoutBody eo co s).scans = s.scans ∧ (timeoutBody eo co s).openP = false
    rw [hr]
    exact ⟨rfl, ho⟩
  | decodeSuccess inst t =>
    have hr : successCallback inst t s = s := by
      simp [successCallback, hA]
    show (successCallback inst t s).scans = s.scans ∧ (successCallback inst t s).openP = false
    rw [hr]
    exact ⟨rfl, ho⟩
  | fileChange f =>
    have hr : fileChangeHandler f s = s := by
      unfold fileChangeHandler
      rw [if_pos]
      simp [ho]
    show (fileChangeHandler f s).scans = s.scans ∧ (fileChangeHandler f s).openP = false
    rw [hr]
    exact ⟨rfl, ho⟩
  | uploadScanClick r =>
    have hr : uploadScanHandler r s = s := by
      unfold uploadScanHandler
      rw [if_pos]
      simp [ho]
    show (uploadScanHandler r s).scans = s.scans ∧ (uploadScanHandler r s).openP = false
    rw [hr]
    exact ⟨rfl, ho⟩

/-- handleClose on a reachable closed controller is a complete no-op. -/
theorem closed_close_id (s : DialogState) (hs : Inv s) (ho : s.openP = false) :
    handleEvent s Event.closeClick = s := by
  have hr : rawHandler s Event.closeClick = s := by
    show { s with openP := false } = s
    cases s
    simp_all
  show commit (rawHandler s Event.closeClick) = s
  rw [hr]
  exact commit_id s hs

/-- The effect cleanup checks for an active instance and does nothing when
there is none and no timeout is scheduled. -/
theorem cleanup_noop (s : DialogState) (hA : s.active = none) (hp : s.pending = false) :
    cleanupEffect s = s := by
  unfold cleanupEffect releaseActive
  cases s
  simp_all

/-- After one cleanup pass, no instance is held and no timeout is scheduled,
and the error state is untouched. -/
theorem cleanup_fields (s : DialogState) :
    (cleanupEffect s).active = none ∧ (cleanupEffect s).pending = false ∧
    (cleanupEffect s).error = s.error := by
  unfold cleanupEffect releaseActive
  cases hA : s.active <;> simp

/-- A character matched by [A-Z0-9] is unchanged by toUpperCase. -/
theorem toUpper_fixed_of_serialChar (c : Char) (hc : isSerialChar c = true) :
    c.toUpper = c := by
  unfold isSerialChar at hc
  simp only [Bool.or_eq_true, Bool.and_eq_true, decide_eq_true_eq] at hc
  unfold Char.toUpper
  rw [if_neg]
  rcases hc with ⟨h1, h2⟩ | ⟨h1, h2⟩ <;> omega

/-- A string of [A-Z0-9] characters is a fixpoint of toUpperCase. -/
theorem jsToUpperCase_fixed (sn : String) (h : sn.data.all isSerialChar = true) :
    jsToUpperCase sn = sn := by
  have hmap : ∀ l : List Char, l.all isSerialChar = true → l.map Char.toUpper = l := by
    intro l hl
    induction l with
    | nil => rfl
    | cons c cs ih =>
      rw [List.all_cons, Bool.and_eq_true] at hl
      rw [List.map_cons, toUpper_fixed_of_serialChar c hl.1, ih hl.2]
  show String.mk (sn.data.map Char.toUpper) = sn
  rw [hmap sn.data h]

/-- C1: for every sequence of open, close and switch-mode stimuli, at most
one camera scanner instance is un-released at any instant; a new instance is
never created (the fresh-id counter never advances) while
activeScannerInstanceRef still holds a live instance, and the mode-switch
handler clears the active instance in the step that moves from camera to
upload mode. -/
theorem c1_at_most_one_live_instance (evs : List Event) :
    (run evs).live.length ≤ 1
    ∧ (∀ e, (run evs).active.isSome = true →
        (handleEvent (run evs) e).nextId = (run evs).nextId)
    ∧ ((run evs).openP = true → (run evs).mode = Mode.camera →
        (switchHandler (run evs)).active = none
        ∧ (switchHandler (run evs)).mode = Mode.upload
        ∧ (switchHandler (run evs)).live = []) := by
  obtain ⟨hd1, hd2, hdiv, hlive, hact, hpend, hui⟩ := inv_run evs
  refine ⟨?_, ?_, ?_⟩
  · rw [hlive]
    unfold activeIds
    cases (run evs).active <;> simp
  · intro e h
    have h1 := rawHandler_nextId_of_active (run evs) e h
    have h2 := (commit_frame (rawHandler (run evs) e)).2.2.1
    exact h2.trans h1
  · intro ho hm
    cases hA : (run evs).active with
    | none =>
      have hl : (run evs).live = [] := by
        rw [hlive]
        simp [activeIds, hA]
      refine ⟨?_, ?_, ?_⟩ <;> simp [switchHandler, ho, hm, Mode.isCamera, hA, hl]
    | some inst =>
      have hl : (run evs).live = [inst.id] := by
        rw [hlive]
        simp [activeIds, hA]
      refine ⟨?_, ?_, ?_⟩ <;>
        simp [switchHandler, ho, hm, Mode.isCamera, hA, hl, List.erase_cons_head]

theorem c1_witness :
    (run [Event.setOpen true, Event.timeoutFire true true]).live.length ≤ 1
    ∧ (handleEvent (run [Event.setOpen true, Event.timeoutFire true true])
        Event.closeClick).nextId
        = (run [Event.setOpen true, Event.timeoutFire true true]).nextId
    ∧ (switchHandler (run [Event.setOpen true, Event.timeoutFire true true])).active = none :=
  ⟨(c1_at_most_one_live_instance [Event.setOpen true, Event.timeoutFire true true]).1,
   (c1_at_most_one_live_instance [Event.setOpen true, Event.timeoutFire true true]).2.1
     Event.closeClick (by decide),
   ((c1_at_most_one_live_instance [Event.setOpen true, Event.timeoutFire true true]).2.2
     (by decide) (by decide)).1⟩

/-- C3: a decode success whose instance is no longer the active one (closure
captured open as false, or activeScannerInstanceRef was cleared or replaced)
is silently discarded: the state is completely unchanged — no onScanSuccess
call, no error, no change to the un-released-instance ledger. -/
theorem c3_stale_decode_discarded (evs : List Event) (inst : Instance) (t : String) :
    inst.capturedOpen = false ∨ (run evs).active ≠ some inst →
      handleEvent (run evs) (Event.decodeSuccess inst t) = run evs
      ∧ (handleEvent (run evs) (Event.decodeSuccess inst t)).scans = (run evs).scans
      ∧ (handleEvent (run evs) (Event.decodeSuccess inst t)).error = (run evs).error
      ∧ (handleEvent (run evs) (Event.decodeSuccess inst t)).live = (run evs).live := by
  intro h
  have hg : (inst.capturedOpen && decide ((run evs).active = some inst)) = false := by
    rcases h with h | h
    · rw [h]
      rfl
    · simp [h]
  have hr : successCallback inst t (run evs) = run evs := by
    unfold successCallback
    rw [if_neg]
    rw [hg]
    simp
  have heq : handleEvent (run evs) (Event.decodeSuccess inst t) = run evs := by
    show commit (successCallback inst t (run evs)) = run evs
    rw [hr]
    exact commit_id _ (inv_run evs)
  exact ⟨heq, by rw [heq], by rw [heq], by rw [heq]⟩

theorem c3_witness :
    (run []).active ≠ some (Instance.mk 5 true)
    ∧ handleEvent (run []) (Event.decodeSuccess (Instance.mk 5 true) "STALE") = run [] :=
  ⟨by decide,
   (c3_stale_decode_discarded [] (Instance.mk 5 true) "STALE" (Or.inr (by decide))).1⟩

/-- C5: in live-camera mode a per-frame decode error (including the frequent
per-frame no-symbol-found result) is never treated as an error and never
surfaced: the error callback ignores every message, so the state — including
the error field and the still-active scanner instance driving the sampling
loop — is completely unchanged. -/
theorem c5_live_noise_filtered (evs : List Event) (msg : String) :
    handleEvent (run evs) (Event.liveDecodeError msg) = run evs := by
  show commit (run evs) = run evs
  exact commit_id _ (inv_run evs)

/-- C2: for every open that ends in a successful decode, onScanSuccess fires
exactly once for that logical attempt: when the active instance reports a
success the scan log grows by exactly one entry and the dialog closes with the
instance released, and while the dialog stays closed no stimulus short of a
re-open can add a scan entry or re-open it — so the 10-per-second sampling
loop cannot deliver a second accepted success for the same open. -/
theorem c2_exactly_one_scan_per_open (evs : List Event) (inst : Instance) (t : String) :
    ((run evs).active = some inst →
      (handleEvent (run evs) (Event.decodeSuccess inst t)).scans = t :: (run evs).scans
      ∧ (handleEvent (run evs) (Event.decodeSuccess inst t)).openP = false
      ∧ (handleEvent (run evs) (Event.decodeSuccess inst t)).active = none)
    ∧ ((run evs).openP = false → ∀ e, opensDialog e = false →
      (handleEvent (run evs) e).scans = (run evs).scans
      ∧ (handleEvent (run evs) e).openP = false) := by
  constructor
  · intro hA
    obtain ⟨hd1, hd2, hdiv, hlive, hact, hpend, hui⟩ := inv_run evs
    have hc : inst.capturedOpen = true := (hact inst hA).1
    have hg : (inst.capturedOpen && decide ((run evs).active = some inst)) = true := by
      rw [hc]
      simp [hA]
    have hraw : successCallback inst t (run evs) =
        { run evs with scans := t :: (run evs).scans, openP := false } := by
      unfold successCallback
      rw [if_pos hg]
    have hframe := commit_frame (successCallback inst t (run evs))
    have hscans : (handleEvent (run evs) (Event.decodeSuccess inst t)).scans
        = t :: (run evs).scans := by
      show (commit (successCallback inst t (run evs))).scans = _
      rw [hframe.2.2.2.1, hraw]
    have hopen : (handleEvent (run evs) (Event.decodeSuccess inst t)).openP = false := by
      show (commit (successCallback inst t (run evs))).openP = _
      rw [hframe.1, hraw]
    refine ⟨hscans, hopen, ?_⟩
    have hpost := inv_handleEvent (run evs) (Event.decodeSuccess inst t) (inv_run evs)
    obtain ⟨-, -, -, -, hact', -, -⟩ := hpost
    cases hA2 : (handleEvent (run evs) (Event.decodeSuccess inst t)).active with
    | none => rfl
    | some inst' =>
      have := (hact' inst' hA2).2.1
      rw [hopen] at this
      exact absurd this (by simp)
  · intro ho e he
    have hraw := closed_raw (run evs) (inv_run evs) ho e he
    have hframe := commit_frame (rawHandler (run evs) e)
    constructor
    · show (commit (rawHandler (run evs) e)).scans = _
      rw [hframe.2.2.2.1, hraw.1]
    · show (commit (rawHandler (run evs) e)).openP = _
      rw [hframe.1, hraw.2]

theorem c2_witness :
    ((handleEvent (run [Event.setOpen true, Event.timeoutFire true true])
        (Event.decodeSuccess (Instance.mk 0 true) "HELLO")).scans
      = "HELLO" :: (run [Event.setOpen true, Event.timeoutFire true true]).scans
     ∧ (handleEvent (run [Event.setOpen true, Event.timeoutFire true true])
        (Event.decodeSuccess (Instance.mk 0 true) "HELLO")).openP = false
     ∧ (handleEvent (run [Event.setOpen true, Event.timeoutFire true true])
        (Event.decodeSuccess (Instance.mk 0 true) "HELLO")).active = none)
    ∧ ((handleEvent (run [Event.setOpen true, Event.closeClick])
        (Event.decodeSuccess (Instance.mk 0 true) "LATE")).scans
      = (run [Event.setOpen true, Event.closeClick]).scans
     ∧ (handleEvent (run [Event.setOpen true, Event.closeClick])
        (Event.decodeSuccess (Instance.mk 0 true) "LATE")).openP = false) :=
  ⟨(c2_exactly_one_scan_per_open [Event.setOpen true, Event.timeoutFire true true]
      (Instance.mk 0 true) "HELLO").1 (by decide),
   (c2_exactly_one_scan_per_open [Event.setOpen true, Event.closeClick]
      (Instance.mk 0 true) "LATE").2 (by decide)
      (Event.decodeSuccess (Instance.mk 0 true) "LATE") (by decide)⟩

/-- C8: closing an already-closed scanner is an idempotent no-op that does not
throw: handleClose on a closed controller changes nothing, closing twice
equals closing once, and the effect cleanup first checks for an active
instance — with none held and no timeout scheduled it changes nothing, it is
idempotent, and it never touches the error state. -/
theorem c8_close_idempotent (evs : List Event) :
    ((run evs).openP = false → handleEvent (run evs) Event.closeClick = run evs)
    ∧ handleEvent (handleEvent (run evs) Event.closeClick) Event.closeClick
        = handleEvent (run evs) Event.closeClick
    ∧ ((run evs).active = none → (run evs).pending = false →
        cleanupEffect (run evs) = run evs)
    ∧ cleanupEffect (cleanupEffect (run evs)) = cleanupEffect (run evs)
    ∧ (cleanupEffect (run evs)).error = (run evs).error := by
  refine ⟨?_, ?_, ?_, ?_, ?_⟩
  · intro ho
    exact closed_close_id (run evs) (inv_run evs) ho
  · have hs1 : Inv (handleEvent (run evs) Event.closeClick) :=
      inv_handleEvent (run evs) Event.closeClick (inv_run evs)
    have ho1 : (handleEvent (run evs) Event.closeClick).openP = false := by
      have := (commit_frame (rawHandler (run evs) Event.closeClick)).1
      exact this
    exact closed_close_id _ hs1 ho1
  · intro hA hp
    exact cleanup_noop (run evs) hA hp
  · obtain ⟨hA, hp, -⟩ := cleanup_fields (run evs)
    exact cleanup_noop _ hA hp
  · exact (cleanup_fields (run evs)).2.2

theorem c8_witness :
    handleEvent (run []) Event.closeClick = run []
    ∧ cleanupEffect (run []) = run [] :=
  ⟨(c8_close_idempotent []).1 (by decide),
   (c8_close_idempotent []).2.2.1 (by decide) (by decide)⟩

/-- C4: no camera acquisition is started before the rendering surface is
confirmed mounted: a scanner instance is only ever created (the fresh-id
counter only ever advances) by the delayed init timeout firing with the
scanner element found and construction succeeding, while the dialog is open,
the mode is camera and the scanner div is mounted — the conditions re-checked
inside the timeout — and then exactly one instance is created. -/
theorem c4_no_acquisition_before_surface (evs : List Event) (e : Event) :
    (handleEvent (run evs) e).nextId ≠ (run evs).nextId →
      (run evs).openP = true ∧ (run evs).mode = Mode.camera
      ∧ (run evs).divMounted = true ∧ (run evs).pending = true
      ∧ e = Event.timeoutFire true true
      ∧ (handleEvent (run evs) e).nextId = (run evs).nextId + 1 := by
  intro h
  have hcf := (commit_frame (rawHandler (run evs) e)).2.2.1
  have hraw : (rawHandler (run evs) e).nextId ≠ (run evs).nextId := by
    intro hx
    exact h (hcf.trans hx)
  cases e with
  | setOpen b => exact absurd rfl hraw
  | closeClick => exact absurd rfl hraw
  | liveDecodeError msg => exact absurd rfl hraw
  | switchClick =>
    exact absurd (rawHandler_nextId_of_nontimeout (run evs) Event.switchClick
      (by intro eo co hx; cases hx)) hraw
  | decodeSuccess inst t =>
    exact absurd (rawHandler_nextId_of_nontimeout (run evs) (Event.decodeSuccess inst t)
      (by intro eo co hx; cases hx)) hraw
  | fileChange f =>
    exact absurd (rawHandler_nextId_of_nontimeout (run evs) (Event.fileChange f)
      (by intro eo co hx; cases hx)) hraw
  | uploadScanClick r =>
    exact absurd (rawHandler_nextId_of_nontimeout (run evs) (Event.uploadScanClick r)
      (by intro eo co hx; cases hx)) hraw
  | timeoutFire eo co =>
    have hraw2 : (timeoutBody eo co (run evs)).nextId ≠ (run evs).nextId := hraw
    by_cases hp : (run evs).pending = true
    · by_cases hg : ((run evs).openP && (run evs).mode.isCamera && (run evs).divMounted) = true
      · have ho : (run evs).openP = true := ((Bool.and_eq_true ..).mp ((Bool.and_eq_true ..).mp hg).1).1
        have hmc : (run evs).mode.isCamera = true := ((Bool.and_eq_true ..).mp ((Bool.and_eq_true ..).mp hg).1).2
        have hdm : (run evs).divMounted = true := ((Bool.and_eq_true ..).mp hg).2
        have hm : (run evs).mode = Mode.camera := by
          cases hmm : (run evs).mode
          · rfl
          · rw [hmm] at hmc
            exact absurd hmc (by simp [Mode.isCamera])
        cases hA : (run evs).active with
        | some inst =>
          exact absurd (by simp [timeoutBody, hp, hg, hA]) hraw2
        | none =>
          rcases Bool.eq_false_or_eq_true eo with heo | heo
          · rcases Bool.eq_false_or_eq_true co with hco | hco
            · have hcreate : timeoutBody eo co (run evs) =
                  { run evs with pending := false,
                                 active := some ⟨(run evs).nextId, (run evs).openP⟩,
                                 live := (run evs).nextId :: (run evs).live,
                                 nextId := (run evs).nextId + 1 } := by
                simp [timeoutBody, hp, hg, hA, heo, hco]
              refine ⟨ho, hm, hdm, hp, by rw [heo, hco], ?_⟩
              show (commit (rawHandler (run evs) (Event.timeoutFire eo co))).nextId
                = (run evs).nextId + 1
              rw [hcf]
              show (timeoutBody eo co (run evs)).nextId = (run evs).nextId + 1
              rw [hcreate]
            · exact absurd (by simp [timeoutBody, hp, hg, hA, heo, hco]) hraw2
          · exact absurd (by simp [timeoutBody, hp, hg, hA, heo]) hraw2
      · exact absurd (by simp [timeoutBody, hp, hg]) hraw2
    · have hpf : (run evs).pending = false := by
        cases hpp : (run evs).pending
        · rfl
        · exact absurd hpp hp
      exact absurd (by simp [timeoutBody, hpf]) hraw2

theorem c4_witness :
    (run [Event.setOpen true]).openP = true
    ∧ (run [Event.setOpen true]).mode = Mode.camera
    ∧ (run [Event.setOpen true]).divMounted = true
    ∧ (run [Event.setOpen true]).pending = true
    ∧ (handleEvent (run [Event.setOpen true]) (Event.timeoutFire true true)).nextId
        = (run [Event.setOpen true]).nextId + 1 :=
  have h := c4_no_acquisition_before_surface [Event.setOpen true]
    (Event.timeoutFire true true) (by decide)
  ⟨h.1, h.2.1, h.2.2.1, h.2.2.2.1, h.2.2.2.2.2⟩

/-- C6: in Upload mode a failed decode of the supplied image is a terminal,
user-visible outcome: the click runs exactly one decode pass, and a
not-found rejection sets the explicit error message and emits a destructive
toast, while no onScanSuccess fires and the dialog stays open — unlike the
silently filtered live-mode case. -/
theorem c6_upload_not_found_terminal (evs : List Event) (msg : String) :
    (run evs).openP = true → (run evs).mode = Mode.upload →
    (run evs).imagePreview.isSome = true → (run evs).fileSelected.isSome = true →
    strContainsLC msg "not found" = true →
      (handleEvent (run evs)
          (Event.uploadScanClick (UploadScanResult.failed msg))).uploadAttempts
        = (run evs).uploadAttempts + 1
      ∧ (handleEvent (run evs) (Event.uploadScanClick (UploadScanResult.failed msg))).error
        = some "No barcode found in the image or format not supported."
      ∧ (handleEvent (run evs) (Event.uploadScanClick (UploadScanResult.failed msg))).toasts
        = Toast.mk "destructive" "Scan Failed" "No barcode found in the image."
            :: (run evs).toasts
      ∧ (handleEvent (run evs) (Event.uploadScanClick (UploadScanResult.failed msg))).scans
        = (run evs).scans
      ∧ (handleEvent (run evs) (Event.uploadScanClick (UploadScanResult.failed msg))).openP
        = true := by
  intro ho hm hpv hfs hmsg
  obtain ⟨hd1, hd2, hdiv, hlive, hact, hpend, hui⟩ := inv_run evs
  cases hf : (run evs).fileSelected with
  | none =>
    rw [hf] at hfs
    exact absurd hfs (by simp)
  | some f =>
    have hraw : uploadScanHandler (UploadScanResult.failed msg) (run evs) =
        { run evs with
            error := some "No barcode found in the image or format not supported.",
            uploadAttempts := (run evs).uploadAttempts + 1,
            toasts := Toast.mk "destructive" "Scan Failed" "No barcode found in the image."
              :: (run evs).toasts } := by
      simp [uploadScanHandler, Mode.isCamera, ho, hm, hpv, hf, hmsg]
    have hcommit : handleEvent (run evs) (Event.uploadScanClick (UploadScanResult.failed msg))
        = uploadScanHandler (UploadScanResult.failed msg) (run evs) := by
      show commit (uploadScanHandler (UploadScanResult.failed msg) (run evs)) = _
      rw [hraw]
      exact commit_eq_of_deps _ hd1 hd2 hdiv
    rw [hcommit, hraw]
    exact ⟨rfl, rfl, rfl, rfl, ho⟩

theorem c6_witness :
    (handleEvent
        (run [Event.setOpen true, Event.switchClick,
              Event.fileChange (some (UploadFile.mk "image/png" 100 true "DATA"))])
        (Event.uploadScanClick (UploadScanResult.failed "Not Found"))).uploadAttempts
      = (run [Event.setOpen true, Event.switchClick,
              Event.fileChange (some (UploadFile.mk "image/png" 100 true "DATA"))]).uploadAttempts + 1
    ∧ (handleEvent
        (run [Event.setOpen true, Event.switchClick,
              Event.fileChange (some (UploadFile.mk "image/png" 100 true "DATA"))])
        (Event.uploadScanClick (UploadScanResult.failed "Not Found"))).error
      = some "No barcode found in the image or format not supported." :=
  have h := c6_upload_not_found_terminal
    [Event.setOpen true, Event.switchClick,
     Event.fileChange (some (UploadFile.mk "image/png" 100 true "DATA"))]
    "Not Found" (by decide) (by decide) (by decide) (by decide) (by decide)
  ⟨h.1, h.2.1⟩

/-- C10: in Upload mode a selected file whose MIME type does not start with
image/ or whose size exceeds 5MB is rejected before any decode attempt: the
matching error message is set, the preview stays empty, the Scan-from-Image
button is disabled, the decode-pass counter is unchanged, and a subsequent
click of the scan button is a complete no-op. -/
theorem c10_invalid_upload_file_rejected (evs : List Event) (f : UploadFile)
    (r : UploadScanResult) :
    (run evs).openP = true → (run evs).mode = Mode.upload →
    (strStartsWith f.mime "image/" = false ∨ 5 * 1024 * 1024 < f.size) →
      (handleEvent (run evs) (Event.fileChange (some f))).error
        = some (if strStartsWith f.mime "image/" then "File is too large. Maximum size is 5MB."
                else "Invalid file type. Please upload an image.")
      ∧ (handleEvent (run evs) (Event.fileChange (some f))).imagePreview = none
      ∧ scanFromImageDisabled (handleEvent (run evs) (Event.fileChange (some f))) = true
      ∧ (handleEvent (run evs) (Event.fileChange (some f))).uploadAttempts
        = (run evs).uploadAttempts
      ∧ handleEvent (handleEvent (run evs) (Event.fileChange (some f)))
          (Event.uploadScanClick r)
        = handleEvent (run evs) (Event.fileChange (some f)) := by
  intro ho hm hrej
  obtain ⟨hd1, hd2, hdiv, hlive, hact, hpend, hui⟩ := inv_run evs
  have hraw : fileChangeHandler (some f) (run evs) =
      { run evs with
          error := some (if strStartsWith f.mime "image/"
            then "File is too large. Maximum size is 5MB."
            else "Invalid file type. Please upload an image."),
          imagePreview := none, fileSelected := some f } := by
    rcases hrej with hmime | hsize
    · simp [fileChangeHandler, Mode.isCamera, ho, hm, hmime]
    · rcases Bool.eq_false_or_eq_true (strStartsWith f.mime "image/") with hmime | hmime
      · simp [fileChangeHandler, Mode.isCamera, ho, hm, hmime, hsize]
      · simp [fileChangeHandler, Mode.isCamera, ho, hm, hmime, hsize]
  have hcommit : handleEvent (run evs) (Event.fileChange (some f))
      = fileChangeHandler (some f) (run evs) := by
    show commit (fileChangeHandler (some f) (run evs)) = _
    rw [hraw]
    exact commit_eq_of_deps _ hd1 hd2 hdiv
  have hpv : (handleEvent (run evs) (Event.fileChange (some f))).imagePreview = none := by
    rw [hcommit, hraw]
  refine ⟨by rw [hcommit, hraw], hpv, ?_, by rw [hcommit, hraw], ?_⟩
  · unfold scanFromImageDisabled
    rw [hpv]
    rfl
  · have hs' := inv_handleEvent (run evs) (Event.fileChange (some f)) (inv_run evs)
    have hg2 : ((handleEvent (run evs) (Event.fileChange (some f))).openP
        && !(handleEvent (run evs) (Event.fileChange (some f))).mode.isCamera
        && (handleEvent (run evs) (Event.fileChange (some f))).imagePreview.isSome)
        = false := by
      rw [hpv]
      simp
    have hru : uploadScanHandler r (handleEvent (run evs) (Event.fileChange (some f)))
        = handleEvent (run evs) (Event.fileChange (some f)) := by
      unfold uploadScanHandler
      rw [if_pos]
      rw [hg2]
      simp
    show commit (uploadScanHandler r (handleEvent (run evs) (Event.fileChange (some f)))) = _
    rw [hru]
    exact commit_id _ hs'

theorem c10_witness :
    (handleEvent (run [Event.setOpen true, Event.switchClick])
        (Event.fileChange (some (UploadFile.mk "text/plain" 10 true "x")))).error
      = some "Invalid file type. Please upload an image."
    ∧ (handleEvent (run [Event.setOpen true, Event.switchClick])
        (Event.fileChange (some (UploadFile.mk "text/plain" 10 true "x")))).imagePreview = none
    ∧ handleEvent
        (handleEvent (run [Event.setOpen true, Event.switchClick])
          (Event.fileChange (some (UploadFile.mk "text/plain" 10 true "x"))))
        (Event.uploadScanClick (UploadScanResult.failed "x"))
      = handleEvent (run [Event.setOpen true, Event.switchClick])
          (Event.fileChange (some (UploadFile.mk "text/plain" 10 true "x"))) :=
  have h := c10_invalid_upload_file_rejected [Event.setOpen true, Event.switchClick]
    (UploadFile.mk "text/plain" 10 true "x") (UploadScanResult.failed "x")
    (by decide) (by decide) (Or.inl (by decide))
  ⟨by
    have h1 := h.1
    rw [show strStartsWith (UploadFile.mk "text/plain" 10 true "x").mime "image/" = false
      by decide] at h1
    simpa using h1,
   h.2.1, h.2.2.2.2⟩

/-- C7: serial numbers are normalized to uppercase and constrained to 8-20
alphanumeric characters before any registry lookup or insert: the registration
path POSTs only serials accepted by the /^[A-Z0-9]\x7b8,20\x7d$/ test, every
accepted serial is 8-20 characters of uppercase letters and digits and is
already its own uppercase form, and the lookup route queries the products
collection by exactly the uppercased serial parameter. -/
theorem c7_serial_normalized_before_lookup_and_insert :
    (∀ sn n m p, handleSubmit sn n m = some p →
      p.1 = sn ∧ serialNumberRegexTest sn = true)
    ∧ (∀ sn, serialNumberRegexTest sn = true →
      8 ≤ sn.length ∧ sn.length ≤ 20 ∧ sn.data.all isSerialChar = true
      ∧ jsToUpperCase sn = sn)
    ∧ (∀ param k, productsGetQueryKey param = some k → k = jsToUpperCase param) := by
  refine ⟨?_, ?_, ?_⟩
  · intro sn n m p h
    unfold handleSubmit at h
    by_cases hv : validateForm sn n m = true
    · rw [if_pos hv] at h
      have hp : p = (sn, n, m) := by
        cases h
        rfl
      refine ⟨by rw [hp], ?_⟩
      unfold validateForm at hv
      split_ifs at hv with h1 h2
      rcases Bool.eq_false_or_eq_true (serialNumberRegexTest sn) with hr | hr
      · exact hr
      · rw [hr] at h2
        exact absurd rfl h2
    · rw [if_neg hv] at h
      cases h
  · intro sn h
    unfold serialNumberRegexTest at h
    simp only [Bool.and_eq_true, decide_eq_true_eq] at h
    exact ⟨h.1.1, h.1.2, h.2, jsToUpperCase_fixed sn h.2⟩
  · intro param k h
    unfold productsGetQueryKey at h
    split_ifs at h
    cases h
    rfl

theorem c7_witness :
    handleSubmit "ABCD1234" "Aspirin" "Acme" = some ("ABCD1234", "Aspirin", "Acme")
    ∧ serialNumberRegexTest "ABCD1234" = true
    ∧ jsToUpperCase "ABCD1234" = "ABCD1234"
    ∧ productsGetQueryKey "ab12cd34" = some "AB12CD34"
    ∧ "AB12CD34" = jsToUpperCase "ab12cd34" :=
  ⟨by decide,
   ((c7_serial_normalized_before_lookup_and_insert).1 "ABCD1234" "Aspirin" "Acme"
      ("ABCD1234", "Aspirin", "Acme") (by decide)).2,
   ((c7_serial_normalized_before_lookup_and_insert).2.1 "ABCD1234" (by decide)).2.2.2,
   by decide,
   (c7_serial_normalized_before_lookup_and_insert).2.2 "ab12cd34" "AB12CD34" (by decide)⟩

/-- C9: every result the authenticity-classifier flow returns carries a
boolean verdict, a free-text rationale (a String by construction) and a
confidence lying in [0,1]: an output violating the schema bounds never parses
and so is never returned. -/
theorem c9_classifier_confidence_in_unit_interval (mo : Option AuthenticityRaw)
    (o : AuthenticityRaw) :
    analyzePackagingFlow mo = Except.ok o →
      (o.isAuthentic = true ∨ o.isAuthentic = false)
      ∧ 0 ≤ o.confidence ∧ o.confidence ≤ 1 := by
  intro h
  cases mo with
  | none =>
    unfold analyzePackagingFlow at h
    cases h
  | some a =>
    unfold analyzePackagingFlow analyzePackagingOutputParse at h
    by_cases hb : 0 ≤ a.confidence ∧ a.confidence ≤ 1
    · rw [Option.bind] at h
      simp only [if_pos hb] at h
      have ha : a = o := by
        cases h
        rfl
      refine ⟨?_, ha ▸ hb.1, ha ▸ hb.2⟩
      rcases Bool.eq_false_or_eq_true o.isAuthentic with h1 | h1
      · exact Or.inl h1
      · exact Or.inr h1
    · rw [Option.bind] at h
      simp only [if_neg hb] at h
      cases h

theorem c9_witness :
    analyzePackagingFlow
        (some (AuthenticityRaw.mk true 1 "clear print and intact hologram" none))
      = Except.ok (AuthenticityRaw.mk true 1 "clear print and intact hologram" none)
    ∧ 0 ≤ (AuthenticityRaw.mk true (1 : Rat) "clear print and intact hologram" none).confidence
    ∧ (AuthenticityRaw.mk true (1 : Rat) "clear print and intact hologram" none).confidence ≤ 1 :=
  have hflow : analyzePackagingFlow
      (some (AuthenticityRaw.mk true 1 "clear print and intact hologram" none))
      = Except.ok (AuthenticityRaw.mk true 1 "clear print and intact hologram" none) := by
    unfold analyzePackagingFlow analyzePackagingOutputParse
    norm_num
  ⟨hflow,
   (c9_classifier_confidence_in_unit_interval
      (some (AuthenticityRaw.mk true 1 "clear print and intact hologram" none))
      (AuthenticityRaw.mk true 1 "clear print and intact hologram" none)
      hflow).2⟩

end Pharma
